import Mathlib

/-!
Verification of the CRCHUM single-cell preprocessing glue
(`Python_project/functions.py`) against its specification.

The three repository functions (`preprocess_10X`, `load_10X`, `reduce_dim`)
are straight-line sequences of calls into the external `scprep` library.
The spec treats `scprep` as an external numeric collaborator and states the
contract of each operation it exposes; those collaborator operations are
modelled here from the wording of the spec (their source is not part of this
repository), while the three repository functions are transliterated from
`functions.py` itself, including the positional-argument binding of the
`preprocess_10X` call inside `load_10X`.

An `ExpressionMatrix` is a labelled gene-by-cell matrix: an ordered list of
gene labels, an ordered list of cell barcodes, and an entry function giving
the value at each (gene, cell) pair.  Filtering steps only shrink the label
lists; the entry function is carried through unchanged, which mirrors the
"row/column subset" data-model invariant of the spec.
-/

/-- A labelled gene-by-cell expression matrix over value type `α`.
`genes` and `cells` are the axis label lists; `entry g c` is the value
stored for gene label `g` and cell barcode `c`. -/
structure ExpressionMatrix (α : Type) where
  genes : List String
  cells : List String
  entry : String → String → α

/-- Total count of cell `c` (its library size): the sum of the entries of
`c` over the current gene list of the matrix. -/
def cellTotal (M : ExpressionMatrix ℕ) (c : String) : ℕ :=
  (M.genes.map (fun g => M.entry g c)).sum

/-- Total count of gene `g`: the sum of the entries of `g` over the
current cell list of the matrix. -/
def geneTotal (M : ExpressionMatrix ℕ) (g : String) : ℕ :=
  (M.cells.map (fun c => M.entry g c)).sum

/-- Keep only the cells satisfying `p`; genes and entries unchanged. -/
def filterCells (M : ExpressionMatrix ℕ) (p : String → Bool) : ExpressionMatrix ℕ :=
  ⟨M.genes, M.cells.filter p, M.entry⟩

/-- Keep only the genes satisfying `p`; cells and entries unchanged. -/
def filterGenes (M : ExpressionMatrix ℕ) (p : String → Bool) : ExpressionMatrix ℕ :=
  ⟨M.genes.filter p, M.cells, M.entry⟩

/-- Modelled from the spec: `scprep.filter.filter_empty_cells` — "Remove
cells with zero total counts" (spec 4.1 step 1). -/
def filter_empty_cells (M : ExpressionMatrix ℕ) : ExpressionMatrix ℕ :=
  filterCells M (fun c => decide (0 < cellTotal M c))

/-- Modelled from the spec: `scprep.filter.filter_empty_genes` — "Remove
genes with zero total counts across remaining cells" (spec 4.1 step 2). -/
def filter_empty_genes (M : ExpressionMatrix ℕ) : ExpressionMatrix ℕ :=
  filterGenes M (fun g => decide (0 < geneTotal M g))

/-- The test `startsWithTag t g` holds when the gene symbol `g` starts with the tag
`t`, compared character by character. -/
def startsWithTag (t g : String) : Bool := t.data.isPrefixOf g.data

/-- Modelled from the spec: `scprep.select.get_gene_set` — "Identify the
gene subset whose symbol starts with `MT-` or `mt-`" (spec 4.1 step 3);
general form: gene-set selection by name start (spec 6). -/
def get_gene_set (M : ExpressionMatrix ℕ) (tags : List String) : List String :=
  M.genes.filter (fun g => tags.any (fun t => startsWithTag t g))

/-- Total expression of cell `c` over the gene set `gs`. -/
def geneSetTotal (gs : List String) (M : ExpressionMatrix ℕ) (c : String) : ℕ :=
  (gs.map (fun g => M.entry g c)).sum

/-- Percentile rank (in `[0,100]`, as a rational) of the value `v` within
the value list `vals`: one hundred times the fraction of listed values
strictly below `v`.  For the empty list the rank is `0` (division by zero
in `ℚ` yields `0`). -/
def pctRank (vals : List ℕ) (v : ℕ) : ℚ :=
  100 * ((vals.filter (fun x => decide (x < v))).length : ℚ) / (vals.length : ℚ)

/-- The executable form of the percentile-rank comparison
`pctRank vals v ≤ pct`, written with integer arithmetic so it evaluates:
`100 * |{x ∈ vals | x < v}| ≤ pct * |vals|`.  Equivalent to the rational
form whenever `vals` is nonempty (`keptByPercentile_iff_pctRank`). -/
def keptByPercentile (vals : List ℕ) (v : ℕ) (pct : ℤ) : Bool :=
  decide (100 * (((vals.filter (fun x => decide (x < v))).length : ℤ))
    ≤ pct * (vals.length : ℤ))

/-- Modelled from the spec: `scprep.filter.filter_gene_set_expression` —
"Remove cells whose mitochondrial-gene expression percentile exceeds
`100 - percent_mt`" (spec 4.1 step 3): a cell is retained exactly when the
percentile rank of its gene-set expression within the current cell
population is at most the `percentile` argument. -/
def filter_gene_set_expression (M : ExpressionMatrix ℕ) (gs : List String)
    (percentile : ℤ) : ExpressionMatrix ℕ :=
  let vals := M.cells.map (geneSetTotal gs M)
  filterCells M (fun c => keptByPercentile vals (geneSetTotal gs M c) percentile)

/-- Modelled from the spec: `scprep.filter.filter_library_size` with
`keep_cells` set to between — "Filter cells to those whose total library
size (sum of counts) lies in the inclusive range `[min_features,
max_features]`" (spec 4.1 step 4). -/
def filter_library_size (M : ExpressionMatrix ℕ) (lo hi : ℕ) : ExpressionMatrix ℕ :=
  filterCells M (fun c => decide (lo ≤ cellTotal M c) && decide (cellTotal M c ≤ hi))

/-- Modelled from the spec: `scprep.filter.filter_rare_genes` with
`cutoff = 0`, `min_cells = 3` — "Remove genes expressed (count > 0) in
fewer than 3 cells" (spec 4.1 step 5). -/
def filter_rare_genes (M : ExpressionMatrix ℕ) (min_cells : ℕ) : ExpressionMatrix ℕ :=
  filterGenes M (fun g =>
    decide (min_cells ≤ (M.cells.filter (fun c => decide (0 < M.entry g c))).length))

/-- Transliteration of `preprocess_10X` from `functions.py` (lines 19-33):
empty-cell filter, empty-gene filter, mitochondrial percentile filter with
the gene set selected from the ORIGINAL `data` argument and percentile
`100 - percent_mt`, library-size filter with cutoffs
`(min_features, max_features)`, and rare-gene filter with `min_cells = 3`.
The `name` parameter is accepted and never used, as in the source. -/
def preprocess_10X (data : ExpressionMatrix ℕ) (name : String) (percent_mt : ℤ)
    (max_features min_features : ℕ) : ExpressionMatrix ℕ :=
  let d1 := filter_empty_cells data
  let d2 := filter_empty_genes d1
  let mt_genes := get_gene_set data ["MT-", "mt-"]
  let d3 := filter_gene_set_expression d2 mt_genes (100 - percent_mt)
  let d4 := filter_library_size d3 min_features max_features
  let d5 := filter_rare_genes d4 3
  d5

/-- The mitochondrial gene set that `preprocess_10X` passes to the
expression filter: selected from the original `data` argument
(`functions.py` line 26 uses `data`, not the already-filtered matrix). -/
def preprocess_mt_genes (data : ExpressionMatrix ℕ) : List String :=
  get_gene_set data ["MT-", "mt-"]

/-- Transliteration of `load_10X` from `functions.py` (lines 48-50).  The
external directory loader is out of scope; `loaded` stands for the matrix
it produced.  The source calls
`preprocess_10X(data, percent_mt, max_features, min_features)` with
POSITIONAL arguments, so Python binds `percent_mt` to the unused `name`
slot (represented here by its string rendering), `max_features` to the
`percent_mt` slot, `min_features` to the `max_features` slot, and leaves
`min_features` at its default `200`. -/
def load_10X (loaded : ExpressionMatrix ℕ) (name : String) (percent_mt : ℤ)
    (max_features min_features : ℕ) : ExpressionMatrix ℕ :=
  preprocess_10X loaded (toString percent_mt) (max_features : ℤ) min_features 200

/-- Modelled from the spec: `scprep.normalize.library_size_normalize` —
"each cell divided by a size factor derived from its total count"
(spec 4.3 step 1); the size factor is the library size of the cell, and an
all-zero cell maps to zero (division by zero in `ℚ` yields `0`). -/
def library_size_normalize (M : ExpressionMatrix ℕ) : ExpressionMatrix ℚ :=
  ⟨M.genes, M.cells, fun g c => (M.entry g c : ℚ) / (cellTotal M c : ℚ)⟩

/-- Modelled from the spec: `scprep.transform.sqrt` — "Element-wise
square-root transform for variance stabilization" (spec 4.3 step 2). -/
noncomputable def transform_sqrt (M : ExpressionMatrix ℚ) : ExpressionMatrix ℝ :=
  ⟨M.genes, M.cells, fun g c => Real.sqrt ((M.entry g c : ℝ))⟩

/-- Transliteration of `reduce_dim` from `functions.py` (lines 64-68):
library-size normalization followed by the element-wise square root.  The
`ndims` and `res` parameters are accepted and never used, as in the
source; no PCA, UMAP, or clustering is performed. -/
noncomputable def reduce_dim (data : ExpressionMatrix ℕ) (ndims : ℕ) (res : ℚ) :
    ExpressionMatrix ℝ :=
  let data_ln := library_size_normalize data
  let data_sq := transform_sqrt data_ln
  data_sq

/-! ### Error-aware variant of the preprocessing pipeline

The spec (4.1 "Failure conditions", 7) assigns an error taxonomy to the
operations of the external collaborator: `InvalidParameterError` when
`percent_mt` is outside `[0,100]` (equivalently, when the percentile
argument `100 - percent_mt` is outside `[0,100]`) or when
`min_features > max_features`, and `EmptyResultError` when a filtering
step would remove all remaining cells or genes.  The variant below wraps
each (spec-modelled) collaborator operation with its spec-stated failure
condition and chains them exactly as the straight-line source does, so an
error from any step propagates and no result matrix is produced. -/

/-- The error taxonomy of the spec (7) relevant to `preprocess_10X`. -/
inductive PreprocessError where
  | invalidParameterError
  | emptyResultError
deriving DecidableEq

/-- Fail with `EmptyResultError` when the matrix has no cells left. -/
def guardCells (M : ExpressionMatrix ℕ) :
    Except PreprocessError (ExpressionMatrix ℕ) :=
  if M.cells = [] then .error .emptyResultError else .ok M

/-- Fail with `EmptyResultError` when the matrix has no genes left. -/
def guardGenes (M : ExpressionMatrix ℕ) :
    Except PreprocessError (ExpressionMatrix ℕ) :=
  if M.genes = [] then .error .emptyResultError else .ok M

/-- Modelled from the spec: `filter_empty_cells` with its failure
condition — `EmptyResultError` when the step removes every cell. -/
def filter_empty_cells_E (M : ExpressionMatrix ℕ) :
    Except PreprocessError (ExpressionMatrix ℕ) :=
  guardCells (filter_empty_cells M)

/-- Modelled from the spec: `filter_empty_genes` with its failure
condition — `EmptyResultError` when the step removes every gene. -/
def filter_empty_genes_E (M : ExpressionMatrix ℕ) :
    Except PreprocessError (ExpressionMatrix ℕ) :=
  guardGenes (filter_empty_genes M)

/-- Modelled from the spec: `filter_gene_set_expression` with its failure
conditions — `InvalidParameterError` when the percentile argument is
outside `[0,100]`, `EmptyResultError` when the step removes every cell. -/
def filter_gene_set_expression_E (M : ExpressionMatrix ℕ) (gs : List String)
    (percentile : ℤ) : Except PreprocessError (ExpressionMatrix ℕ) :=
  if percentile < 0 ∨ 100 < percentile then .error .invalidParameterError
  else guardCells (filter_gene_set_expression M gs percentile)

/-- Modelled from the spec: `filter_library_size` with its failure
conditions — `InvalidParameterError` when the lower cutoff exceeds the
upper one, `EmptyResultError` when the step removes every cell. -/
def filter_library_size_E (M : ExpressionMatrix ℕ) (lo hi : ℕ) :
    Except PreprocessError (ExpressionMatrix ℕ) :=
  if hi < lo then .error .invalidParameterError
  else guardCells (filter_library_size M lo hi)

/-- Modelled from the spec: `filter_rare_genes` with its failure
condition — `EmptyResultError` when the step removes every gene. -/
def filter_rare_genes_E (M : ExpressionMatrix ℕ) (min_cells : ℕ) :
    Except PreprocessError (ExpressionMatrix ℕ) :=
  guardGenes (filter_rare_genes M min_cells)

/-- The error-aware reading of `preprocess_10X`: the same five collaborator
calls in the same order as the source, each able to fail as the spec
states; failures propagate through the straight-line chain. -/
def preprocess_10X_E (data : ExpressionMatrix ℕ) (name : String)
    (percent_mt : ℤ) (max_features min_features : ℕ) :
    Except PreprocessError (ExpressionMatrix ℕ) :=
  (filter_empty_cells_E data).bind fun d1 =>
  (filter_empty_genes_E d1).bind fun d2 =>
  (filter_gene_set_expression_E d2 (get_gene_set data ["MT-", "mt-"])
      (100 - percent_mt)).bind fun d3 =>
  (filter_library_size_E d3 min_features max_features).bind fun d4 =>
  filter_rare_genes_E d4 3

/-! ### Concrete matrices used in counterexamples and witnesses -/

/-! ### Named intermediate stages of `preprocess_10X`

`stageN d …` is the matrix after the first `N` filtering steps; by
definition `preprocess_10X` returns `stage5`. -/

/-- After step 1 (empty-cell filter). -/
def stage1 (d : ExpressionMatrix ℕ) : ExpressionMatrix ℕ :=
  filter_empty_cells d

/-- After step 2 (empty-gene filter). -/
def stage2 (d : ExpressionMatrix ℕ) : ExpressionMatrix ℕ :=
  filter_empty_genes (stage1 d)

/-- After step 3 (mitochondrial percentile filter), with
`percent_mt = p`; the gene set comes from the original `d`. -/
def stage3 (d : ExpressionMatrix ℕ) (p : ℤ) : ExpressionMatrix ℕ :=
  filter_gene_set_expression (stage2 d) (preprocess_mt_genes d) (100 - p)

/-- After step 4 (library-size filter), with cutoffs `(mn, mx)`. -/
def stage4 (d : ExpressionMatrix ℕ) (p : ℤ) (mx mn : ℕ) : ExpressionMatrix ℕ :=
  filter_library_size (stage3 d p) mn mx

/-- After step 5 (rare-gene filter). -/
def stage5 (d : ExpressionMatrix ℕ) (p : ℤ) (mx mn : ℕ) : ExpressionMatrix ℕ :=
  filter_rare_genes (stage4 d p mx mn) 3

theorem preprocess_10X_eq_stage5 (d : ExpressionMatrix ℕ) (nm : String)
    (p : ℤ) (mx mn : ℕ) : preprocess_10X d nm p mx mn = stage5 d p mx mn := rfl

/-! ### Basic lemmas about the filters -/

theorem filterCells_genes (M : ExpressionMatrix ℕ) (p : String → Bool) :
    (filterCells M p).genes = M.genes := rfl

theorem filterCells_cells (M : ExpressionMatrix ℕ) (p : String → Bool) :
    (filterCells M p).cells = M.cells.filter p := rfl

theorem filterCells_entry (M : ExpressionMatrix ℕ) (p : String → Bool) :
    (filterCells M p).entry = M.entry := rfl

theorem filterGenes_genes (M : ExpressionMatrix ℕ) (p : String → Bool) :
    (filterGenes M p).genes = M.genes.filter p := rfl

theorem filterGenes_cells (M : ExpressionMatrix ℕ) (p : String → Bool) :
    (filterGenes M p).cells = M.cells := rfl

theorem filterGenes_entry (M : ExpressionMatrix ℕ) (p : String → Bool) :
    (filterGenes M p).entry = M.entry := rfl

/-- The integer test `keptByPercentile` agrees with the rational
percentile-rank comparison on any nonempty population. -/
theorem keptByPercentile_iff_pctRank (vals : List ℕ) (v : ℕ) (pct : ℤ)
    (h : 0 < vals.length) :
    keptByPercentile vals v pct = true ↔ pctRank vals v ≤ (pct : ℚ) := by
  have hn : (0 : ℚ) < (vals.length : ℚ) := by exact_mod_cast h
  rw [keptByPercentile, decide_eq_true_eq, pctRank, div_le_iff₀ hn]
  constructor
  · intro hle
    calc 100 * ((vals.filter (fun x => decide (x < v))).length : ℚ)
        = (((100 * ((vals.filter (fun x => decide (x < v))).length : ℤ)) : ℤ) : ℚ) := by
          push_cast; ring
      _ ≤ ((pct * (vals.length : ℤ) : ℤ) : ℚ) := by exact_mod_cast hle
      _ = (pct : ℚ) * (vals.length : ℚ) := by push_cast; ring
  · intro hle
    have : ((100 * ((vals.filter (fun x => decide (x < v))).length : ℤ) : ℤ) : ℚ)
        ≤ ((pct * (vals.length : ℤ) : ℤ) : ℚ) := by
      calc ((100 * ((vals.filter (fun x => decide (x < v))).length : ℤ) : ℤ) : ℚ)
          = 100 * ((vals.filter (fun x => decide (x < v))).length : ℚ) := by
            push_cast; ring
        _ ≤ (pct : ℚ) * (vals.length : ℚ) := hle
        _ = ((pct * (vals.length : ℤ) : ℤ) : ℚ) := by push_cast; ring
    exact_mod_cast this

/-- Percentile ranks, as defined from the wording of the spec, never exceed
`100`. -/
theorem pctRank_le_100 (vals : List ℕ) (v : ℕ) : pctRank vals v ≤ 100 := by
  rw [pctRank]
  rcases Nat.eq_zero_or_pos vals.length with h0 | hpos
  · rw [h0]
    norm_num
  · have hn : (0 : ℚ) < (vals.length : ℚ) := by exact_mod_cast hpos
    rw [div_le_iff₀ hn]
    have hle : ((vals.filter (fun x => decide (x < v))).length : ℚ)
        ≤ (vals.length : ℚ) := by
      exact_mod_cast List.length_filter_le _ vals
    nlinarith

/-- With percentile argument `100` (the value `preprocess_10X` passes when
`percent_mt = 0`), the percentile filter keeps every cell. -/
theorem keptByPercentile_hundred (vals : List ℕ) (v : ℕ) :
    keptByPercentile vals v 100 = true := by
  rw [keptByPercentile, decide_eq_true_eq]
  have hle : (((vals.filter (fun x => decide (x < v))).length : ℤ))
      ≤ (vals.length : ℤ) := by
    exact_mod_cast List.length_filter_le _ vals
  nlinarith

/-- A gene with zero total count keeps a zero total count after any
cell filtering (its per-cell entries are all zero). -/
theorem geneTotal_filterCells_eq_zero (M : ExpressionMatrix ℕ)
    (p : String → Bool) (g : String) (h : geneTotal M g = 0) :
    geneTotal (filterCells M p) g = 0 := by
  rw [geneTotal, List.sum_eq_zero_iff] at h ⊢
  intro x hx
  rw [filterCells_cells, filterCells_entry] at hx
  rcases List.mem_map.mp hx with ⟨c, hc, hrfl⟩
  exact h x (List.mem_map.mpr ⟨c, List.mem_of_mem_filter hc, hrfl⟩)

/-! ### Concrete matrices used in counterexamples and witnesses -/

/-- Entry function built from an explicit association list
`(gene, cell, value)`; absent pairs are `0`. -/
def lk (l : List (String × String × ℕ)) : String → String → ℕ := fun g c =>
  l.foldr (fun t acc => if t.1 = g && t.2.1 = c then t.2.2 else acc) 0

/-- One gene, three cells of library size 12 each: under the intended
thresholds `(percent_mt, max_features, min_features) = (0, 50, 10)` all
three cells survive, while under the shifted thresholds actually produced
by `load_10X` no cell does. -/
def D1 : ExpressionMatrix ℕ :=
  ⟨["gA"], ["c1", "c2", "c3"],
    lk [("gA", "c1", 12), ("gA", "c2", 12), ("gA", "c3", 12)]⟩

/-- A matrix on which every one of the five filtering steps of
`preprocess_10X` (with `percent_mt = 20`, `max_features = 30`,
`min_features = 1`) strictly shrinks its input: `c0` is an empty cell,
`g0` an empty gene, `c6` carries the top mitochondrial load, `c5` has
library size `100 > 30`, and `gR` is expressed in a single cell. -/
def D2 : ExpressionMatrix ℕ :=
  ⟨["gA", "gR", "g0", "MT-A"], ["c0", "c1", "c2", "c3", "c4", "c5", "c6"],
    lk [("gA", "c1", 5), ("gA", "c2", 5), ("gA", "c3", 5), ("gA", "c4", 5),
        ("gA", "c5", 100), ("gR", "c4", 2), ("MT-A", "c6", 10)]⟩

/-- Two cells, one (`cB`) with positive mitochondrial expression; used to
refute the `percent_mt = 0` boundary statement of the spec. -/
def M3 : ExpressionMatrix ℕ :=
  ⟨["gA", "MT-X"], ["cA", "cB"],
    lk [("gA", "cA", 1), ("gA", "cB", 1), ("MT-X", "cB", 5)]⟩

/-- Gene `gB` is expressed in a single cell (`c4`), so step 5 removes it,
leaving `c4` with an all-zero row set; a second run of `preprocess_10X`
then removes `c4`, refuting idempotence. -/
def D6 : ExpressionMatrix ℕ :=
  ⟨["gA", "gB"], ["c1", "c2", "c3", "c4"],
    lk [("gA", "c1", 1), ("gA", "c2", 1), ("gA", "c3", 1), ("gB", "c4", 1)]⟩

/-- A matrix with a mitochondrially tagged gene (`MT-Z`) of zero total
count. -/
def W10 : ExpressionMatrix ℕ :=
  ⟨["gA", "MT-Z"], ["c1"], lk [("gA", "c1", 2)]⟩


/-! ## Claim theorems -/

/-- C1: the claim says `load_10X` passes the supplied `percent_mt`,
`max_features`, `min_features` through to `preprocess_10X` unchanged.  The
source instead passes them POSITIONALLY, so they land one slot to the
left: `percent_mt` in the unused `name` slot, `max_features` in the
`percent_mt` slot, `min_features` in the `max_features` slot, and
`min_features` falls back to its default `200`.  First conjunct: the shift,
for all inputs.  Second conjunct: a concrete input on which the shifted
call and the intended call give different results, so the slip is
observable. -/
theorem c1_load_shifts_parameters :
    (∀ (loaded : ExpressionMatrix ℕ) (nm : String) (p : ℤ) (mx mn : ℕ),
      load_10X loaded nm p mx mn
        = preprocess_10X loaded (toString p) (mx : ℤ) mn 200)
    ∧ load_10X D1 "nm" 0 50 10 ≠ preprocess_10X D1 "nm" 0 50 10 := by
  constructor
  · intro loaded nm p mx mn
    rfl
  · intro h
    exact absurd (congrArg ExpressionMatrix.cells h) (by decide)

/-- C2: `preprocess_10X` is exactly the composition, in order, of the
empty-cell filter, the empty-gene filter, the mitochondrial percentile
filter (gene set taken from the original input, percentile
`100 - percent_mt`), the library-size filter with cutoffs
`(min_features, max_features)`, and the rare-gene filter with
`min_cells = 3` — and on the matrix `D2` every one of the five steps
strictly shrinks its input, so none is a no-op. -/
theorem c2_pipeline_composition :
    (∀ (d : ExpressionMatrix ℕ) (nm : String) (p : ℤ) (mx mn : ℕ),
      preprocess_10X d nm p mx mn
        = filter_rare_genes
            (filter_library_size
              (filter_gene_set_expression (filter_empty_genes (filter_empty_cells d))
                (get_gene_set d ["MT-", "mt-"]) (100 - p))
              mn mx)
            3)
    ∧ (stage1 D2).cells.length < D2.cells.length
    ∧ (stage2 D2).genes.length < (stage1 D2).genes.length
    ∧ (stage3 D2 20).cells.length < (stage2 D2).cells.length
    ∧ (stage4 D2 20 30 1).cells.length < (stage3 D2 20).cells.length
    ∧ (stage5 D2 20 30 1).genes.length < (stage4 D2 20 30 1).genes.length := by
  refine ⟨fun d nm p mx mn => rfl, by decide, by decide, by decide, by decide, by decide⟩

/-- C3 (counterexample): the `percent_mt = 0` boundary of the claim says every
cell with any mitochondrial expression is removed, yet on `M3` the cell
`cB` has mitochondrial expression `5 > 0` and survives
`preprocess_10X M3 _ 0 5000 0` — with `percent_mt = 0` the percentile
argument is `100`, and a percentile rank can never exceed `100`, so the
mitochondrial step removes nothing. -/
theorem c3_counterexample :
    0 < geneSetTotal (preprocess_mt_genes M3) M3 "cB"
    ∧ "cB" ∈ (preprocess_10X M3 "10X-project" 0 5000 0).cells := by
  exact ⟨by decide, by decide⟩

/-- C3 (amended): the mitochondrial step of `preprocess_10X` retains
exactly the cells of the working matrix whose mitochondrial percentile
rank is at most `100 - percent_mt` (first conjunct, for a nonempty cell
population).  The boundary behaviour is the reverse of the one claimed: with
`percent_mt = 0` the step removes NO cell (percentile ranks never exceed
`100`, second and third conjuncts), and with `percent_mt = 100` it removes
every cell of positive percentile rank, i.e. every cell whose
mitochondrial load strictly exceeds that of some other cell (fourth
conjunct). -/
theorem c3_mt_percentile_filter (d : ExpressionMatrix ℕ) (p : ℤ) (c : String) :
    (0 < (stage2 d).cells.length →
      (c ∈ (stage3 d p).cells ↔
        c ∈ (stage2 d).cells ∧
          pctRank ((stage2 d).cells.map (geneSetTotal (preprocess_mt_genes d) (stage2 d)))
              (geneSetTotal (preprocess_mt_genes d) (stage2 d) c)
            ≤ ((100 - p : ℤ) : ℚ)))
    ∧ pctRank ((stage2 d).cells.map (geneSetTotal (preprocess_mt_genes d) (stage2 d)))
        (geneSetTotal (preprocess_mt_genes d) (stage2 d) c) ≤ 100
    ∧ stage3 d 0 = stage2 d
    ∧ (c ∈ (stage3 d 100).cells ↔
        c ∈ (stage2 d).cells ∧
          keptByPercentile
            ((stage2 d).cells.map (geneSetTotal (preprocess_mt_genes d) (stage2 d)))
            (geneSetTotal (preprocess_mt_genes d) (stage2 d) c) 0 = true) := by
  refine ⟨?_, pctRank_le_100 _ _, ?_, ?_⟩
  · intro hlen
    rw [stage3, filter_gene_set_expression]
    rw [filterCells_cells, List.mem_filter]
    rw [keptByPercentile_iff_pctRank _ _ _ (by simpa using hlen)]
  · rw [stage3, filter_gene_set_expression]
    have hall : ∀ c' ∈ (stage2 d).cells,
        keptByPercentile
          ((stage2 d).cells.map (geneSetTotal (preprocess_mt_genes d) (stage2 d)))
          (geneSetTotal (preprocess_mt_genes d) (stage2 d) c') ((100 : ℤ) - 0) = true := by
      intro c' _
      simpa using keptByPercentile_hundred _ _
    rcases hstage : stage2 d with ⟨gs, cs, e⟩
    rw [filterCells]
    simp only [ExpressionMatrix.mk.injEq, true_and, and_true]
    have := List.filter_eq_self.mpr (by simpa [hstage] using hall)
    simpa using this
  · rw [stage3, filter_gene_set_expression]
    rw [filterCells_cells, List.mem_filter]
    norm_num

/-- Witness for `c3_mt_percentile_filter` at `d = M3`, `p = 50`,
`c = "cB"`: the cell population after steps 1-2 is nonempty, and the
membership characterisation follows by applying the theorem there. -/
theorem c3_mt_percentile_filter_witness :
    0 < (stage2 M3).cells.length
    ∧ ("cB" ∈ (stage3 M3 50).cells ↔
        "cB" ∈ (stage2 M3).cells ∧
          pctRank ((stage2 M3).cells.map (geneSetTotal (preprocess_mt_genes M3) (stage2 M3)))
              (geneSetTotal (preprocess_mt_genes M3) (stage2 M3) "cB")
            ≤ ((100 - 50 : ℤ) : ℚ)) :=
  ⟨by decide, (c3_mt_percentile_filter M3 50 "cB").1 (by decide)⟩

/-- C4: the library-size step keeps exactly the cells whose total count
lies in the INCLUSIVE range `[lo, hi]` (first conjunct); in particular a
cell whose library size equals either endpoint is retained (second
conjunct), and `preprocess_10X` invokes exactly this step with cutoffs
`(min_features, max_features)` on the matrix left by the mitochondrial
filter (third conjunct). -/
theorem c4_library_size_inclusive :
    (∀ (M : ExpressionMatrix ℕ) (lo hi : ℕ) (c : String),
      c ∈ (filter_library_size M lo hi).cells ↔
        c ∈ M.cells ∧ lo ≤ cellTotal M c ∧ cellTotal M c ≤ hi)
    ∧ (∀ (M : ExpressionMatrix ℕ) (lo hi : ℕ) (c : String),
        c ∈ M.cells → lo ≤ hi → (cellTotal M c = lo ∨ cellTotal M c = hi) →
          c ∈ (filter_library_size M lo hi).cells)
    ∧ (∀ (d : ExpressionMatrix ℕ) (nm : String) (p : ℤ) (mx mn : ℕ),
        preprocess_10X d nm p mx mn
          = filter_rare_genes (filter_library_size (stage3 d p) mn mx) 3) := by
  have hmem : ∀ (M : ExpressionMatrix ℕ) (lo hi : ℕ) (c : String),
      c ∈ (filter_library_size M lo hi).cells ↔
        c ∈ M.cells ∧ lo ≤ cellTotal M c ∧ cellTotal M c ≤ hi := by
    intro M lo hi c
    rw [filter_library_size, filterCells_cells, List.mem_filter]
    simp
  refine ⟨hmem, ?_, fun d nm p mx mn => rfl⟩
  intro M lo hi c hc hlohi hends
  rw [hmem]
  rcases hends with h | h <;> simp [hc, h, hlohi]

/-- Witness for `c4_library_size_inclusive`: on `D1` with cutoffs
`(12, 12)`, cell `c1` has library size exactly `12` — both endpoints at
once — and is retained. -/
theorem c4_library_size_inclusive_witness :
    "c1" ∈ D1.cells ∧ (12 : ℕ) ≤ 12 ∧ cellTotal D1 "c1" = 12
    ∧ "c1" ∈ (filter_library_size D1 12 12).cells :=
  ⟨by decide, le_refl 12, by decide,
    c4_library_size_inclusive.2.1 D1 12 12 "c1" (by decide) (le_refl 12)
      (Or.inl (by decide))⟩

/-- C5: for every input and every parameter setting, the output of
`preprocess_10X` has gene and cell label lists that are subsets of those of the
input, and its entry function is that of the input itself, so every retained
entry equals the corresponding input entry and no new genes, cells, or
values are introduced. -/
theorem c5_output_subset_of_input (d : ExpressionMatrix ℕ) (nm : String)
    (p : ℤ) (mx mn : ℕ) :
    (preprocess_10X d nm p mx mn).genes ⊆ d.genes
    ∧ (preprocess_10X d nm p mx mn).cells ⊆ d.cells
    ∧ ∀ g c, (preprocess_10X d nm p mx mn).entry g c = d.entry g c := by
  refine ⟨?_, ?_, fun g c => rfl⟩
  · intro x hx
    exact List.mem_of_mem_filter (List.mem_of_mem_filter hx)
  · intro x hx
    exact List.mem_of_mem_filter
      (List.mem_of_mem_filter (List.mem_of_mem_filter hx))

/-- C6 (counterexample): `preprocess_10X` is not idempotent.  On `D6`
(with `percent_mt = 20`, `max_features = 5000`, `min_features = 1`) the
rare-gene step removes gene `gB`, leaving cell `c4` with zero counts over
the surviving genes; re-running the pipeline on the output then removes
`c4`, so the second run does not return its input unchanged. -/
theorem c6_counterexample :
    preprocess_10X (preprocess_10X D6 "10X-project" 20 5000 1)
        "10X-project" 20 5000 1
      ≠ preprocess_10X D6 "10X-project" 20 5000 1 := by
  intro h
  exact absurd (congrArg ExpressionMatrix.cells h) (by decide)

/-- C6 (amended): `preprocess_10X` is not idempotent in general — there
are inputs and parameter settings on which re-applying it with the same
parameters removes further cells. -/
theorem c6_not_idempotent :
    ∃ (d : ExpressionMatrix ℕ) (nm : String) (p : ℤ) (mx mn : ℕ),
      preprocess_10X (preprocess_10X d nm p mx mn) nm p mx mn
        ≠ preprocess_10X d nm p mx mn := by
  refine ⟨D6, "10X-project", 20, 5000, 1, fun h => ?_⟩
  exact absurd (congrArg ExpressionMatrix.cells h) (by decide)

/-- C8: `reduce_dim` is exactly the element-wise square root of the
library-size-normalized matrix — normalization first, then square root
(first conjunct); each resulting entry is the square root of the raw
count divided by the library size of the cell (second conjunct); and every
value of the result is non-negative (third conjunct).  Inputs are count
matrices over `ℕ`, so non-negativity of the input holds by type. -/
theorem c8_reduce_dim_sqrt_of_normalized (d : ExpressionMatrix ℕ) (n : ℕ)
    (r : ℚ) :
    reduce_dim d n r = transform_sqrt (library_size_normalize d)
    ∧ (∀ g c, (reduce_dim d n r).entry g c
        = Real.sqrt ((d.entry g c : ℝ) / (cellTotal d c : ℝ)))
    ∧ ∀ g c, 0 ≤ (reduce_dim d n r).entry g c := by
  refine ⟨rfl, fun g c => ?_, fun g c => Real.sqrt_nonneg _⟩
  show Real.sqrt ((((d.entry g c : ℚ) / (cellTotal d c : ℚ) : ℚ)) : ℝ)
      = Real.sqrt ((d.entry g c : ℝ) / (cellTotal d c : ℝ))
  congr 1
  push_cast
  ring

/-- C9: the `ndims` and `res` parameters of `reduce_dim` have no influence
on the result — any two parameter pairs give equal outputs on every
input. -/
theorem c9_reduce_dim_params_unused (d : ExpressionMatrix ℕ)
    (n1 n2 : ℕ) (r1 r2 : ℚ) : reduce_dim d n1 r1 = reduce_dim d n2 r2 := rfl

/-- C10: the mitochondrial gene set of `preprocess_10X` is selected from
the ORIGINAL input, not from the matrix left by the empty-cell and
empty-gene filters: a gene tagged `MT-` or `mt-` with zero total counts is
in the gene set handed to the expression filter even though step 2 has
removed it from the working matrix. -/
theorem c10_mt_genes_from_original (d : ExpressionMatrix ℕ) (g : String)
    (hg : g ∈ d.genes)
    (htag : startsWithTag "MT-" g = true ∨ startsWithTag "mt-" g = true)
    (hzero : geneTotal d g = 0) :
    g ∈ preprocess_mt_genes d
    ∧ g ∉ (filter_empty_genes (filter_empty_cells d)).genes := by
  constructor
  · rw [preprocess_mt_genes, get_gene_set]
    rw [List.mem_filter]
    refine ⟨hg, ?_⟩
    rw [List.any_eq_true]
    rcases htag with h | h
    · exact ⟨"MT-", by simp, h⟩
    · exact ⟨"mt-", by simp, h⟩
  · rw [filter_empty_genes, filterGenes_genes, List.mem_filter]
    intro ⟨_, hkeep⟩
    rw [decide_eq_true_eq] at hkeep
    have h0 : geneTotal (filter_empty_cells d) g = 0 :=
      geneTotal_filterCells_eq_zero d _ g hzero
    omega

/-- Witness for `c10_mt_genes_from_original` at `d = W10`, `g = "MT-Z"`:
`MT-Z` is a mitochondrially tagged gene of `W10` with zero total count; it
lands in the gene set passed to the expression filter although the
empty-gene step drops it. -/
theorem c10_mt_genes_from_original_witness :
    ("MT-Z" ∈ W10.genes ∧ startsWithTag "MT-" "MT-Z" = true
      ∧ geneTotal W10 "MT-Z" = 0)
    ∧ ("MT-Z" ∈ preprocess_mt_genes W10
      ∧ "MT-Z" ∉ (filter_empty_genes (filter_empty_cells W10)).genes) :=
  ⟨⟨by decide, by decide, by decide⟩,
    c10_mt_genes_from_original W10 "MT-Z" (by decide) (Or.inl (by decide))
      (by decide)⟩

/-! Bind-reduction lemmas for the guarded steps, used to put the
error-aware pipeline into a nested-if normal form. -/

theorem bind_emptyCells_err {d : ExpressionMatrix ℕ}
    {f : ExpressionMatrix ℕ → Except PreprocessError (ExpressionMatrix ℕ)}
    (h : (filter_empty_cells d).cells = []) :
    (filter_empty_cells_E d).bind f = Except.error PreprocessError.emptyResultError := by
  rw [filter_empty_cells_E, guardCells, if_pos h]
  rfl

theorem bind_emptyCells_ok {d : ExpressionMatrix ℕ}
    {f : ExpressionMatrix ℕ → Except PreprocessError (ExpressionMatrix ℕ)}
    (h : ¬(filter_empty_cells d).cells = []) :
    (filter_empty_cells_E d).bind f = f (filter_empty_cells d) := by
  rw [filter_empty_cells_E, guardCells, if_neg h]
  rfl

theorem bind_emptyGenes_err {M : ExpressionMatrix ℕ}
    {f : ExpressionMatrix ℕ → Except PreprocessError (ExpressionMatrix ℕ)}
    (h : (filter_empty_genes M).genes = []) :
    (filter_empty_genes_E M).bind f = Except.error PreprocessError.emptyResultError := by
  rw [filter_empty_genes_E, guardGenes, if_pos h]
  rfl

theorem bind_emptyGenes_ok {M : ExpressionMatrix ℕ}
    {f : ExpressionMatrix ℕ → Except PreprocessError (ExpressionMatrix ℕ)}
    (h : ¬(filter_empty_genes M).genes = []) :
    (filter_empty_genes_E M).bind f = f (filter_empty_genes M) := by
  rw [filter_empty_genes_E, guardGenes, if_neg h]
  rfl

theorem bind_geneSet_invalid {M : ExpressionMatrix ℕ} {gs : List String}
    {pct : ℤ} {f : ExpressionMatrix ℕ → Except PreprocessError (ExpressionMatrix ℕ)}
    (h : pct < 0 ∨ 100 < pct) :
    (filter_gene_set_expression_E M gs pct).bind f
      = Except.error PreprocessError.invalidParameterError := by
  rw [filter_gene_set_expression_E, if_pos h]
  rfl

theorem bind_geneSet_err {M : ExpressionMatrix ℕ} {gs : List String}
    {pct : ℤ} {f : ExpressionMatrix ℕ → Except PreprocessError (ExpressionMatrix ℕ)}
    (hv : ¬(pct < 0 ∨ 100 < pct))
    (h : (filter_gene_set_expression M gs pct).cells = []) :
    (filter_gene_set_expression_E M gs pct).bind f
      = Except.error PreprocessError.emptyResultError := by
  rw [filter_gene_set_expression_E, if_neg hv, guardCells, if_pos h]
  rfl

theorem bind_geneSet_ok {M : ExpressionMatrix ℕ} {gs : List String}
    {pct : ℤ} {f : ExpressionMatrix ℕ → Except PreprocessError (ExpressionMatrix ℕ)}
    (hv : ¬(pct < 0 ∨ 100 < pct))
    (h : ¬(filter_gene_set_expression M gs pct).cells = []) :
    (filter_gene_set_expression_E M gs pct).bind f
      = f (filter_gene_set_expression M gs pct) := by
  rw [filter_gene_set_expression_E, if_neg hv, guardCells, if_neg h]
  rfl

theorem bind_librarySize_invalid {M : ExpressionMatrix ℕ} {lo hi : ℕ}
    {f : ExpressionMatrix ℕ → Except PreprocessError (ExpressionMatrix ℕ)}
    (h : hi < lo) :
    (filter_library_size_E M lo hi).bind f
      = Except.error PreprocessError.invalidParameterError := by
  rw [filter_library_size_E, if_pos h]
  rfl

theorem bind_librarySize_err {M : ExpressionMatrix ℕ} {lo hi : ℕ}
    {f : ExpressionMatrix ℕ → Except PreprocessError (ExpressionMatrix ℕ)}
    (hv : ¬hi < lo) (h : (filter_library_size M lo hi).cells = []) :
    (filter_library_size_E M lo hi).bind f
      = Except.error PreprocessError.emptyResultError := by
  rw [filter_library_size_E, if_neg hv, guardCells, if_pos h]
  rfl

theorem bind_librarySize_ok {M : ExpressionMatrix ℕ} {lo hi : ℕ}
    {f : ExpressionMatrix ℕ → Except PreprocessError (ExpressionMatrix ℕ)}
    (hv : ¬hi < lo) (h : ¬(filter_library_size M lo hi).cells = []) :
    (filter_library_size_E M lo hi).bind f = f (filter_library_size M lo hi) := by
  rw [filter_library_size_E, if_neg hv, guardCells, if_neg h]
  rfl

/-- Normal form of the error-aware pipeline: the straight-line chain of
guarded steps is the nested case split on, in source order, step-1
emptiness, step-2 emptiness, percentile validity, step-3 emptiness,
cutoff-order validity, step-4 emptiness and step-5 emptiness. -/
theorem preprocess_10X_E_eq (d : ExpressionMatrix ℕ) (nm : String) (p : ℤ)
    (mx mn : ℕ) :
    preprocess_10X_E d nm p mx mn =
      if (stage1 d).cells = [] then .error .emptyResultError
      else if (stage2 d).genes = [] then .error .emptyResultError
      else if 100 - p < 0 ∨ 100 < 100 - p then .error .invalidParameterError
      else if (stage3 d p).cells = [] then .error .emptyResultError
      else if mx < mn then .error .invalidParameterError
      else if (stage4 d p mx mn).cells = [] then .error .emptyResultError
      else if (stage5 d p mx mn).genes = [] then .error .emptyResultError
      else .ok (stage5 d p mx mn) := by
  simp only [stage5, stage4, stage3, stage2, stage1, preprocess_mt_genes]
  rw [preprocess_10X_E]
  by_cases h1 : (filter_empty_cells d).cells = []
  · rw [bind_emptyCells_err h1, if_pos h1]
  · rw [bind_emptyCells_ok h1, if_neg h1]
    by_cases h2 : (filter_empty_genes (filter_empty_cells d)).genes = []
    · rw [bind_emptyGenes_err h2, if_pos h2]
    · rw [bind_emptyGenes_ok h2, if_neg h2]
      by_cases h3 : (100 : ℤ) - p < 0 ∨ 100 < 100 - p
      · rw [bind_geneSet_invalid h3, if_pos h3]
      · rw [if_neg h3]
        by_cases h4 : (filter_gene_set_expression
            (filter_empty_genes (filter_empty_cells d))
            (get_gene_set d ["MT-", "mt-"]) (100 - p)).cells = []
        · rw [bind_geneSet_err h3 h4, if_pos h4]
        · rw [bind_geneSet_ok h3 h4, if_neg h4]
          by_cases h5 : mx < mn
          · rw [bind_librarySize_invalid h5, if_pos h5]
          · rw [if_neg h5]
            by_cases h6 : (filter_library_size (filter_gene_set_expression
                (filter_empty_genes (filter_empty_cells d))
                (get_gene_set d ["MT-", "mt-"]) (100 - p)) mn mx).cells = []
            · rw [bind_librarySize_err h5 h6, if_pos h6]
            · rw [bind_librarySize_ok h5 h6, if_neg h6]
              rw [filter_rare_genes_E, guardGenes]

/-- C7 (spec-modelled error behaviour): the error-aware pipeline returns
the preprocessed matrix exactly when `percent_mt` lies in `[0,100]`,
`min_features ≤ max_features`, and no filtering step leaves the matrix
with no cells or no genes (first conjunct); under valid parameters it
never reports `InvalidParameterError` (second conjunct); when no step
empties the matrix it never reports `EmptyResultError` (third conjunct);
and on any error no result matrix is produced (fourth conjunct). -/
theorem c7_error_behavior (d : ExpressionMatrix ℕ) (nm : String) (p : ℤ)
    (mx mn : ℕ) :
    (preprocess_10X_E d nm p mx mn = Except.ok (preprocess_10X d nm p mx mn)
      ↔ (0 ≤ p ∧ p ≤ 100 ∧ mn ≤ mx
          ∧ (stage1 d).cells ≠ [] ∧ (stage2 d).genes ≠ []
          ∧ (stage3 d p).cells ≠ [] ∧ (stage4 d p mx mn).cells ≠ []
          ∧ (stage5 d p mx mn).genes ≠ []))
    ∧ ((0 ≤ p ∧ p ≤ 100 ∧ mn ≤ mx) →
        preprocess_10X_E d nm p mx mn
          ≠ Except.error PreprocessError.invalidParameterError)
    ∧ (((stage1 d).cells ≠ [] ∧ (stage2 d).genes ≠ []
          ∧ (stage3 d p).cells ≠ [] ∧ (stage4 d p mx mn).cells ≠ []
          ∧ (stage5 d p mx mn).genes ≠ []) →
        preprocess_10X_E d nm p mx mn
          ≠ Except.error PreprocessError.emptyResultError)
    ∧ (∀ e, preprocess_10X_E d nm p mx mn = Except.error e →
        ∀ M, preprocess_10X_E d nm p mx mn ≠ Except.ok M) := by
  have hok : preprocess_10X d nm p mx mn = stage5 d p mx mn := rfl
  refine ⟨?_, ?_, ?_, ?_⟩
  · rw [preprocess_10X_E_eq, hok]
    split_ifs with h1 h2 h3 h4 h5 h6 h7
    · exact iff_of_false (by simp) (by simp [h1])
    · exact iff_of_false (by simp) (by simp [h2])
    · refine iff_of_false (by simp) ?_
      rintro ⟨hp0, hp1, -⟩
      omega
    · refine iff_of_false (by simp) ?_
      rintro ⟨-, -, -, -, -, hc, -, -⟩
      exact hc h4
    · refine iff_of_false (by simp) ?_
      rintro ⟨-, -, hmn, -⟩
      omega
    · refine iff_of_false (by simp) ?_
      rintro ⟨-, -, -, -, -, -, hc, -⟩
      exact hc h6
    · refine iff_of_false (by simp) ?_
      rintro ⟨-, -, -, -, -, -, -, hg⟩
      exact hg h7
    · exact iff_of_true rfl
        ⟨by omega, by omega, by omega, h1, h2, h4, h6, h7⟩
  · rw [preprocess_10X_E_eq]
    rintro ⟨hp0, hp1, hmn⟩
    split_ifs with h1 h2 h3 h4 h5 h6 h7
    · simp
    · simp
    · exfalso
      omega
    · simp
    · exfalso
      omega
    · simp
    · simp
    · simp
  · rw [preprocess_10X_E_eq]
    rintro ⟨hc1, hc2, hc3, hc4, hc5⟩
    split_ifs <;> simp_all
  · intro e he M hM
    rw [he] at hM
    exact Except.noConfusion hM

/-- Witness for `c7_error_behavior` at `d = D2`, parameters
`(percent_mt, max_features, min_features) = (20, 30, 1)`: the parameters
are valid, no step empties the matrix, and the error-aware pipeline
returns the preprocessed matrix with neither error. -/
theorem c7_error_behavior_witness :
    ((0 : ℤ) ≤ 20 ∧ (20 : ℤ) ≤ 100 ∧ (1 : ℕ) ≤ 30
      ∧ (stage1 D2).cells ≠ [] ∧ (stage2 D2).genes ≠ []
      ∧ (stage3 D2 20).cells ≠ [] ∧ (stage4 D2 20 30 1).cells ≠ []
      ∧ (stage5 D2 20 30 1).genes ≠ [])
    ∧ preprocess_10X_E D2 "10X-project" 20 30 1
        = Except.ok (preprocess_10X D2 "10X-project" 20 30 1)
    ∧ preprocess_10X_E D2 "10X-project" 20 30 1
        ≠ Except.error PreprocessError.invalidParameterError
    ∧ preprocess_10X_E D2 "10X-project" 20 30 1
        ≠ Except.error PreprocessError.emptyResultError := by
  have hside : (0 : ℤ) ≤ 20 ∧ (20 : ℤ) ≤ 100 ∧ (1 : ℕ) ≤ 30
      ∧ (stage1 D2).cells ≠ [] ∧ (stage2 D2).genes ≠ []
      ∧ (stage3 D2 20).cells ≠ [] ∧ (stage4 D2 20 30 1).cells ≠ []
      ∧ (stage5 D2 20 30 1).genes ≠ [] :=
    ⟨by decide, by decide, by decide, by decide, by decide, by decide,
      by decide, by decide⟩
  have h := c7_error_behavior D2 "10X-project" 20 30 1
  exact ⟨hside, h.1.mpr hside,
    h.2.1 ⟨hside.1, hside.2.1, hside.2.2.1⟩,
    h.2.2.1 ⟨hside.2.2.2.1, hside.2.2.2.2.1, hside.2.2.2.2.2.1,
      hside.2.2.2.2.2.2.1, hside.2.2.2.2.2.2.2⟩⟩
